import Mathlib

/-!
Verification of the CodeCity object model
(src/server/interpreter/object/object.go).

The Go package defines JavaScript-like values: a `Value` interface,
an `Object` type with an owner, a parent (prototype) link, a property
table mapping names to descriptors, and a reserved boolean flag; plus
`GetProperty`/`SetProperty` and the well-known root `ObjectProto`.
We embed these shallowly: the Go map becomes an association list with
unique keys, mutation becomes explicit state passing (each operation
returns the updated `Object`), and fallible results carry an
`Option ErrorMsg`.
-/

namespace CodeCity

/-- Modelled from the spec: `Owner` is an opaque principal identity used
purely for equality (the Go `Owner` type is outside the inspected file). -/
structure Owner where
  id : Nat
deriving DecidableEq, Repr

/-- Modelled from the spec: `ErrorMsg` is the structured failure type
returned by fallible operations (defined outside the inspected file). -/
structure ErrorMsg where
  msg : String
deriving DecidableEq, Repr

mutual

/-- The `Value` interface: JavaScript values.  `undefined`, `null`,
`boolean`, `number` and `str` are the primitive variants (modelled from
the spec, as only `Object` is defined in the inspected file); `object`
wraps an `Object`. -/
inductive Value : Type where
  | undefined : Value
  | null : Value
  | boolean : Bool → Value
  | number : Int → Value
  | str : String → Value
  | object : Object → Value

/-- `Object` from object.go: owner pointer (nilable, hence `Option`),
parent (prototype) `Value`, property table, and the reserved flag `f`. -/
inductive Object : Type where
  | mk : Option Owner → Value → PropMap → Bool → Object

/-- The `property` descriptor from object.go: owner, value `v`,
world-readable `r`, enumerable `e`, inherited-permissions `i`. -/
inductive property : Type where
  | mk : Option Owner → Value → Bool → Bool → Bool → property

/-- The Go `map[string]property`, embedded as an association list with
unique keys (insertion overwrites an existing key in place). -/
inductive PropMap : Type where
  | nil : PropMap
  | cons : String → property → PropMap → PropMap

end

def property.owner : property → Option Owner
  | .mk o _ _ _ _ => o

def property.v : property → Value
  | .mk _ v _ _ _ => v

def property.r : property → Bool
  | .mk _ _ r _ _ => r

def property.e : property → Bool
  | .mk _ _ _ e _ => e

def property.i : property → Bool
  | .mk _ _ _ _ i => i

def Object.owner : Object → Option Owner
  | .mk o _ _ _ => o

def Object.parent : Object → Value
  | .mk _ p _ _ => p

def Object.properties : Object → PropMap
  | .mk _ _ ps _ => ps

def Object.f : Object → Bool
  | .mk _ _ _ f => f

/-- Go map read `pd, ok := m[name]`. -/
def PropMap.lookup : PropMap → String → Option property
  | .nil, _ => none
  | .cons m pd rest, n => if m = n then some pd else rest.lookup n

/-- Go map write `m[name] = pd`: overwrite the existing entry for the
key, or add a new one. -/
def PropMap.insert : PropMap → String → property → PropMap
  | .nil, n, pd => .cons n pd .nil
  | .cons m q rest, n, pd =>
      if m = n then .cons n pd rest else .cons m q (rest.insert n pd)

/-- `func (this Object) Parent() Value`. -/
def Object.Parent (this : Object) : Value :=
  this.parent

/-- `func (this Object) GetProperty(name string) (Value, *ErrorMsg)`:
look up the name in the own table of the receiver; if absent return
the undefined value and nil, otherwise return the value stored in the
descriptor and nil. -/
def Object.GetProperty (this : Object) (name : String) :
    Value × Option ErrorMsg :=
  match this.properties.lookup name with
  | none => (Value.undefined, none)
  | some pd => (pd.v, none)

/-- `func (this *Object) SetProperty(name string, value Value) *ErrorMsg`:
if a local descriptor exists, replace its value only; otherwise create a
new descriptor with owner = this.owner, r = true, e = true, i = false.
Mutation of the receiver is embedded as returning the updated object. -/
def Object.SetProperty (this : Object) (name : String) (value : Value) :
    Object × Option ErrorMsg :=
  match this.properties.lookup name with
  | some pd =>
      (Object.mk this.owner this.parent
        (this.properties.insert name
          (property.mk pd.owner value pd.r pd.e pd.i)) this.f, none)
  | none =>
      (Object.mk this.owner this.parent
        (this.properties.insert name
          (property.mk this.owner value true true false)) this.f, none)

/-- `var ObjectProto = &Object{parent: Null{}, properties: make(...)}`:
owner is the zero value (nil) and `f` is the zero value (false). -/
def ObjectProto : Object :=
  Object.mk none Value.null PropMap.nil false

/-- Does any node of the prototype chain starting at `v` (the node
itself, then its parent, and so on until a non-object is reached) hold a
descriptor for `name` in its own table? -/
def chainHasProperty : Value → String → Bool
  | .object (.mk _ parent props _), name =>
      (props.lookup name).isSome || chainHasProperty parent name
  | _, _ => false

/-! Concrete principals and objects for the scenarios in the spec. -/

def alice : Owner := ⟨1⟩

def bob : Owner := ⟨2⟩

/-- Object `b` of the three-object chain scenario: parent is Null and
its own table holds property "z". -/
def bNode : Object :=
  Object.mk (some alice) Value.null
    (PropMap.cons "z" (property.mk (some alice) (Value.number 42) true true false)
      PropMap.nil) false

/-- Object `a` of the three-object chain scenario: parent is `b`, empty
own table, so the chain is a -> b -> Null. -/
def aNode : Object :=
  Object.mk (some alice) (Value.object bNode) PropMap.nil false

/-- An object holding a non-world-readable property "s" owned by alice
(readableByAll = false). -/
def secretObj : Object :=
  Object.mk (some alice) Value.null
    (PropMap.cons "s" (property.mk (some alice) (Value.number 7) false true false)
      PropMap.nil) false

/-- The `root` object of the spec scenario: owned by alice, parent Null,
with a local descriptor for "x" owned by alice. -/
def rootObj : Object :=
  Object.mk (some alice) Value.null
    (PropMap.cons "x" (property.mk (some alice) (Value.number 5) true true false)
      PropMap.nil) false

/-! Lemmas about the association-list embedding of the Go map. -/

theorem PropMap.lookup_insert_self :
    (ps : PropMap) → (n : String) → (pd : property) →
    (ps.insert n pd).lookup n = some pd
  | .nil, n, pd => by simp [PropMap.insert, PropMap.lookup]
  | .cons m q rest, n, pd => by
      by_cases h : m = n
      · simp [PropMap.insert, h, PropMap.lookup]
      · simp only [PropMap.insert, h, if_false, PropMap.lookup, if_neg h]
        exact PropMap.lookup_insert_self rest n pd

theorem PropMap.lookup_insert_ne :
    (ps : PropMap) → (n m : String) → (pd : property) → m ≠ n →
    (ps.insert n pd).lookup m = ps.lookup m
  | .nil, n, m, pd, h => by
      simp [PropMap.insert, PropMap.lookup, Ne.symm h]
  | .cons k q rest, n, m, pd, h => by
      by_cases hk : k = n
      · subst hk
        simp [PropMap.insert, PropMap.lookup, Ne.symm h]
      · by_cases hm : k = m
        · subst hm
          simp [PropMap.insert, hk, PropMap.lookup, Ne.symm h]
        · simp only [PropMap.insert, hk, if_false, PropMap.lookup, hm,
            if_neg hk, if_neg hm]
          exact PropMap.lookup_insert_ne rest n m pd h

theorem Object.properties_mk (ow : Option Owner) (p : Value) (ps : PropMap)
    (fl : Bool) : (Object.mk ow p ps fl).properties = ps := rfl

theorem Object.parent_mk (ow : Option Owner) (p : Value) (ps : PropMap)
    (fl : Bool) : (Object.mk ow p ps fl).parent = p := rfl

theorem SetProperty_update (o : Object) (n : String) (v : Value)
    (pd : property) (h : o.properties.lookup n = some pd) :
    o.SetProperty n v =
      (Object.mk o.owner o.parent
        (o.properties.insert n (property.mk pd.owner v pd.r pd.e pd.i)) o.f,
       none) := by
  simp [Object.SetProperty, h]

theorem SetProperty_create (o : Object) (n : String) (v : Value)
    (h : o.properties.lookup n = none) :
    o.SetProperty n v =
      (Object.mk o.owner o.parent
        (o.properties.insert n (property.mk o.owner v true true false)) o.f,
       none) := by
  simp [Object.SetProperty, h]

/-- C1: the claim says GetProperty walks the prototype chain and, for the
chain a -> b -> Null with "z" only on b, returns the value held by b
when asked at a.  The code consults only the own table of the
receiver: at `aNode` it returns
undefined even though `bNode` (its parent) holds "z". -/
theorem C1_code_bug_no_chain_walk :
    chainHasProperty (Value.object aNode) "z" = true ∧
    bNode.GetProperty "z" = (Value.number 42, none) ∧
    aNode.GetProperty "z" = (Value.undefined, none) :=
  ⟨rfl, rfl, rfl⟩

/-- C2: the claim says reading a descriptor with readableByAll = false
fails with PermissionDenied unless the acting principal is the owner.
The code takes no acting principal and performs no readability check:
reading the non-world-readable "s" returns its value with no error. -/
theorem C2_code_bug_no_read_check :
    (secretObj.properties.lookup "s").map property.r = some false ∧
    secretObj.GetProperty "s" = (Value.number 7, none) :=
  ⟨rfl, rfl⟩

/-- C3: the claim says SetProperty on an existing local descriptor fails
with PermissionDenied when the acting principal is not the owner of the
descriptor (e.g. Bob writing the "x" owned by alice).  The code takes no acting
principal and performs no writeability check: the write always succeeds
and the value is replaced. -/
theorem C3_code_bug_no_write_check :
    (rootObj.properties.lookup "x").map property.owner = some (some alice) ∧
    (rootObj.SetProperty "x" (Value.number 6)).2 = none ∧
    (rootObj.SetProperty "x" (Value.number 6)).1.GetProperty "x" =
      (Value.number 6, none) :=
  ⟨rfl, rfl, rfl⟩

/-- C4: the claim says a freshly created property is seeded with owner =
the acting principal.  The code has no acting principal and seeds the
owner of the new descriptor from the owner of the object (its own FIXME comment
says it "should be caller"); the other seeded fields are r = true,
e = true, i = false as claimed. -/
theorem C4_code_bug_owner_seeded_from_object :
    rootObj.properties.lookup "w" = none ∧
    (rootObj.SetProperty "w" (Value.number 1)).1.properties.lookup "w" =
      some (property.mk (some alice) (Value.number 1) true true false) :=
  ⟨rfl, rfl⟩

/-- C5: after a set of name n to value v on any object, the set reports
no error and an immediately following get of n returns v with no error
(set/get round-trip).  In the code both operations take no principal, so
this holds for every acting principal. -/
theorem C5_set_get_roundtrip (o : Object) (n : String) (v : Value) :
    (o.SetProperty n v).2 = none ∧
    (o.SetProperty n v).1.GetProperty n = (v, none) := by
  cases h : o.properties.lookup n with
  | none =>
      rw [SetProperty_create o n v h]
      refine ⟨rfl, ?_⟩
      simp [Object.GetProperty, Object.properties_mk,
        PropMap.lookup_insert_self, property.v]
  | some pd =>
      rw [SetProperty_update o n v pd h]
      refine ⟨rfl, ?_⟩
      simp [Object.GetProperty, Object.properties_mk,
        PropMap.lookup_insert_self, property.v]

/-- C6: a successful set on an existing local descriptor replaces only
the stored value: owner, r, e, i are preserved, and setting the same
name twice with the same value leaves the permission fields equal to
what they were before the first set. -/
theorem C6_update_preserves_permissions (o : Object) (n : String)
    (v : Value) (pd : property) (h : o.properties.lookup n = some pd) :
    (o.SetProperty n v).1.properties.lookup n =
      some (property.mk pd.owner v pd.r pd.e pd.i) ∧
    ((o.SetProperty n v).1.SetProperty n v).1.properties.lookup n =
      some (property.mk pd.owner v pd.r pd.e pd.i) := by
  have h1 : (o.SetProperty n v).1.properties.lookup n =
      some (property.mk pd.owner v pd.r pd.e pd.i) := by
    rw [SetProperty_update o n v pd h]
    simp [Object.properties_mk, PropMap.lookup_insert_self]
  refine ⟨h1, ?_⟩
  rw [SetProperty_update _ n v _ h1]
  simp [Object.properties_mk, PropMap.lookup_insert_self,
    property.owner, property.r, property.e, property.i]

/-- C6 witness: instantiated at rootObj and its property "x". -/
theorem C6_update_preserves_permissions_witness :
    rootObj.properties.lookup "x" =
      some (property.mk (some alice) (Value.number 5) true true false) ∧
    ((rootObj.SetProperty "x" (Value.number 9)).1.properties.lookup "x" =
      some (property.mk (some alice) (Value.number 9) true true false) ∧
    ((rootObj.SetProperty "x" (Value.number 9)).1.SetProperty "x"
        (Value.number 9)).1.properties.lookup "x" =
      some (property.mk (some alice) (Value.number 9) true true false)) :=
  ⟨rfl, C6_update_preserves_permissions rootObj "x" (Value.number 9)
    (property.mk (some alice) (Value.number 5) true true false) rfl⟩

/-- C7: a successful set touches exactly one entry of the own table of
the receiver (the one for the written name), leaves the lookup of every
other name unchanged, and leaves the parent link (hence every ancestor
in the chain) and the owner and flag of the receiver untouched. -/
theorem C7_set_touches_one_local_entry (o : Object) (n m : String)
    (v : Value) (hmn : m ≠ n) :
    (o.SetProperty n v).2 = none ∧
    ((o.SetProperty n v).1.properties.lookup n).map property.v = some v ∧
    (o.SetProperty n v).1.properties.lookup m = o.properties.lookup m ∧
    (o.SetProperty n v).1.parent = o.parent ∧
    (o.SetProperty n v).1.owner = o.owner ∧
    (o.SetProperty n v).1.f = o.f := by
  cases h : o.properties.lookup n with
  | none =>
      rw [SetProperty_create o n v h]
      refine ⟨rfl, ?_, ?_, rfl, rfl, rfl⟩
      · simp [Object.properties_mk, PropMap.lookup_insert_self, property.v]
      · simp [Object.properties_mk, PropMap.lookup_insert_ne _ _ _ _ hmn]
  | some pd =>
      rw [SetProperty_update o n v pd h]
      refine ⟨rfl, ?_, ?_, rfl, rfl, rfl⟩
      · simp [Object.properties_mk, PropMap.lookup_insert_self, property.v]
      · simp [Object.properties_mk, PropMap.lookup_insert_ne _ _ _ _ hmn]

/-- C7 witness: shadowing "z" (inherited from bNode) on aNode creates a
local entry for "z", leaves "q" alone, and leaves the parent (bNode,
with its descriptor and value) untouched. -/
theorem C7_set_touches_one_local_entry_witness :
    "q" ≠ "z" ∧
    ((aNode.SetProperty "z" (Value.number 9)).2 = none ∧
    ((aNode.SetProperty "z" (Value.number 9)).1.properties.lookup "z").map
      property.v = some (Value.number 9) ∧
    (aNode.SetProperty "z" (Value.number 9)).1.properties.lookup "q" =
      aNode.properties.lookup "q" ∧
    (aNode.SetProperty "z" (Value.number 9)).1.parent = aNode.parent ∧
    (aNode.SetProperty "z" (Value.number 9)).1.owner = aNode.owner ∧
    (aNode.SetProperty "z" (Value.number 9)).1.f = aNode.f) :=
  ⟨by decide, C7_set_touches_one_local_entry aNode "z" "q"
    (Value.number 9) (by decide)⟩

/-- C8: for a name with no descriptor anywhere in the prototype
prototype chain, GetProperty returns the undefined value and no error
(absence of a property is not an error). -/
theorem C8_absent_everywhere_returns_undefined (o : Object) (n : String)
    (h : chainHasProperty (Value.object o) n = false) :
    o.GetProperty n = (Value.undefined, none) := by
  cases o with
  | mk ow p ps fl =>
      cases hl : ps.lookup n with
      | none =>
          simp [Object.GetProperty, Object.properties, hl]
      | some pd =>
          exfalso
          simp [chainHasProperty, hl] at h

/-- C8 witness: instantiated at ObjectProto and the name "y". -/
theorem C8_absent_everywhere_returns_undefined_witness :
    chainHasProperty (Value.object ObjectProto) "y" = false ∧
    ObjectProto.GetProperty "y" = (Value.undefined, none) :=
  ⟨rfl, C8_absent_everywhere_returns_undefined ObjectProto "y" rfl⟩

/-- C9: ObjectProto has parent Null and an initially empty property
table, so its prototype chain terminates immediately at Null. -/
theorem C9_ObjectProto_root :
    ObjectProto.parent = Value.null ∧
    ObjectProto.properties = PropMap.nil ∧
    (∀ n : String, chainHasProperty (Value.object ObjectProto) n = false) :=
  ⟨rfl, rfl, fun _ => rfl⟩

/-- C10: in the implemented code GetProperty and SetProperty take no
acting principal (the embedded signatures mirror the Go ones) and never
return a non-nil ErrorMsg: every read and every write reports no
error. -/
theorem C10_no_operation_errors (o : Object) (n : String) (v : Value) :
    (o.GetProperty n).2 = none ∧ (o.SetProperty n v).2 = none := by
  refine ⟨?_, ?_⟩
  · cases h : o.properties.lookup n <;> simp [Object.GetProperty, h]
  · cases h : o.properties.lookup n <;> simp [Object.SetProperty, h]

end CodeCity
